import Mathlib

set_option linter.unusedVariables false
set_option maxRecDepth 8000

/-!
Shallow embedding of `prosail/sail_model.py` (the driver around the PROSPECT and
SAILh radiative-transfer engines) and proofs about its argument handling.

Modelling conventions:
* Spectra are `List ℚ`; real(float) arithmetic is modelled by exact rationals.
  The properties verified here are structural (validation order, selection,
  exact linear mixing), not floating-point rounding facts.
* Python exceptions are modelled by an explicit error type `PyErr`; each
  function returns `Except PyErr _`.  `raise ValueError` becomes
  `.valueError msg`, a failed `assert` becomes `.assertionError`, and
  evaluating a global name that the module never binds (the file imports only
  `numpy`, `scipy` and `prospect_d.run_prospect`) becomes `.nameError n`.
* The canopy engine `sail` is code of this repository that is not included
  under `src/` (only its caller is); following the specification it is taken
  as an injected deterministic function argument of type `SailFn`.
* `pyUpper` models Python `str.upper` (ASCII casing, which covers the five
  factor names and all their casings).
* numpy elementwise operations are modelled on aligned lengths
  (`List.zipWith`); numpy broadcasting errors for mismatched lengths are
  outside the model, and every theorem below constrains lengths so that no
  mismatched elementwise operation is ever reached on the modelled paths.
-/

namespace Prosail

/-- A sampled spectrum: 400..2500 nm at 1 nm steps is 2101 values. -/
abbrev Spectrum := List ℚ

/-- The Python exceptions the driver can raise. -/
inductive PyErr where
  | valueError (msg : String)
  | assertionError
  | nameError (missing : String)
deriving DecidableEq

/-- The four-row result of the SAILh canopy model (`rho[0,:]` .. `rho[3,:]`). -/
structure Rho where
  r0 : Spectrum
  r1 : Spectrum
  r2 : Spectrum
  r3 : Spectrum
deriving DecidableEq

/-- Value returned by the drivers: a single reflectance-factor spectrum, the
whole four-row result (factor "ALL"), or Python implicit `None` (the
unreachable fall-through of the dispatch chain). -/
inductive SailOutput where
  | spectrum (s : Spectrum)
  | matrix (rho : Rho)
  | pyNone
deriving DecidableEq

/-- Modelled from the spec: the CanopyReflectanceModel (`sail`, the SAILh
four-stream engine) is code of this repository that is not included under
`src/`.  Per the spec it is a deterministic pure function of the leaf optics,
canopy structure, geometry and the substrate soil spectrum, producing the
four reflectance-factor rows.  It is injected as a function argument; the
argument order mirrors the call site
`sail(refl, trans, lai, lidfa, lidfb, rsoil0, hspot, tts, tto, psi, typelidf)`. -/
abbrev SailFn :=
  Spectrum → Spectrum → ℚ → ℚ → ℚ → Spectrum → ℚ → ℚ → ℚ → ℚ → ℤ → Rho

/-- Python `str.upper`, as used at lines 83 and 187 (ASCII casing): upper-case
every character of the string. -/
def pyUpper (s : String) : String := String.mk (s.data.map Char.toUpper)

/-- The fixed enumeration of output-factor selectors. -/
def allowedFactors : List String := ["SDR", "BHR", "DHR", "HDR", "ALL"]

/-- Message of the invalid-factor ValueError (identical text in `run_sail`
line 189 and `run_prosail` line 85). -/
def factorMsg : String := "\x27factor\x27 must be one of SDR, BHR, DHR, HDR or ALL"

/-- Message of the underspecified-soil ValueError in `run_sail` (lines 203-204). -/
def sailSoilMsg : String :=
  "If rsoil0 isn\x27t defined, then rsoil and psoil need to be defined!"

/-- Message of the underspecified-soil ValueError in `run_prosail`
(lines 99-100; the source text reads "define", not "defined"). -/
def prosailSoilMsg : String :=
  "If rsoil0 isn\x27t define, then rsoil and psoil need to be defined!"

/-- numpy scalar-times-array product, elementwise. -/
def smul (c : ℚ) (s : Spectrum) : Spectrum := s.map (fun x => c * x)

/-- numpy elementwise array addition (used only on aligned lengths). -/
def addSpec (a b : Spectrum) : Spectrum := List.zipWith (· + ·) a b

/-- The soil mixing expression of lines 205-206 (and 101-102):
`rsoil * (psoil * soil_spectrum1 + (1 - psoil) * soil_spectrum2)`. -/
def soilMix (s1 s2 : Spectrum) (rsoil psoil : ℚ) : Spectrum :=
  smul rsoil (addSpec (smul psoil s1) (smul (1 - psoil) s2))

/-- The factor dispatch chain of lines 210-219 (textually repeated at lines
112-121): `rho[0,:]` for SDR, `rho[1,:]` for BHR, `rho[2,:]` for DHR,
`rho[3,:]` for HDR, the whole array for ALL, and Python falls off the end
(returning `None`) for anything else. -/
def factorSelect (factor : String) (rho : Rho) : SailOutput :=
  if factor = "SDR" then .spectrum rho.r0
  else if factor = "BHR" then .spectrum rho.r1
  else if factor = "DHR" then .spectrum rho.r2
  else if factor = "HDR" then .spectrum rho.r3
  else if factor = "ALL" then .matrix rho
  else .pyNone

/-- `run_sail` of `sail_model.py` lines 124-219.  Control flow, in source
order: upper-case the factor and validate it (lines 187-189); resolve
`soil_spectrum1` (lines 191-194: a supplied spectrum must assert
`len == 2101`, an omitted one evaluates the unbound global `spectral_libs`);
resolve `soil_spectrum2` (lines 196-199: note the source re-asserts
`len(soil_spectrum1) == 2101` here, so a supplied `soil_spectrum2` is never
length-checked); resolve the soil spectrum (lines 201-206: a supplied
`rsoil0` is used verbatim and never length-checked, otherwise both scalars
are required and the linear mixture is built); run the canopy engine
(line 207) and dispatch on the factor (lines 210-219). -/
def run_sail (sailFn : SailFn) (refl trans : Spectrum)
    (lai lidfa hspot tts tto psi : ℚ) (typelidf : ℤ) (lidfb : ℚ)
    (factor : String) (rsoil0 : Option Spectrum) (rsoil psoil : Option ℚ)
    (soil_spectrum1 soil_spectrum2 : Option Spectrum) :
    Except PyErr SailOutput :=
  let f := pyUpper factor
  if allowedFactors.contains f then
    match soil_spectrum1 with
    | none => .error (.nameError "spectral_libs")
    | some s1 =>
      if s1.length = 2101 then
        match soil_spectrum2 with
        | none => .error (.nameError "spectral_libs")
        | some s2 =>
          if s1.length = 2101 then
            match rsoil0 with
            | some r0 =>
              .ok (factorSelect f
                (sailFn refl trans lai lidfa lidfb r0 hspot tts tto psi typelidf))
            | none =>
              match rsoil, psoil with
              | some rs, some ps =>
                .ok (factorSelect f
                  (sailFn refl trans lai lidfa lidfb (soilMix s1 s2 rs ps)
                    hspot tts tto psi typelidf))
              | _, _ => .error (.valueError sailSoilMsg)
          else .error .assertionError
      else .error .assertionError
  else .error (.valueError factorMsg)

/-- `run_prosail` of `sail_model.py` lines 7-121.  Identical marshalling to
`run_sail` (factor validation lines 83-85, spectrum resolution lines 87-95
with the same re-assertion of `len(soil_spectrum1)` at line 93, soil
resolution lines 97-102), after which line 104 invokes `run_prospect` with
keyword arguments `nr=nr, kab=kab, ...`: Python evaluates the argument
expressions first and `nr` is unbound in the module, so every path that
reaches line 104 raises `NameError` on `nr` and the dispatch at lines
112-121 is unreachable. -/
def run_prosail (n cab car cbrown cw cm lai lidfa hspot tts tto psi ant alpha : ℚ)
    (prospect_version : String) (typelidf : ℤ) (lidfb : ℚ) (factor : String)
    (rsoil0 : Option Spectrum) (rsoil psoil : Option ℚ)
    (soil_spectrum1 soil_spectrum2 : Option Spectrum) :
    Except PyErr SailOutput :=
  let f := pyUpper factor
  if allowedFactors.contains f then
    match soil_spectrum1 with
    | none => .error (.nameError "spectral_libs")
    | some s1 =>
      if s1.length = 2101 then
        match soil_spectrum2 with
        | none => .error (.nameError "spectral_libs")
        | some _s2 =>
          if s1.length = 2101 then
            match rsoil0 with
            | some _ => .error (.nameError "nr")
            | none =>
              match rsoil, psoil with
              | some _rs, some _ps => .error (.nameError "nr")
              | _, _ => .error (.valueError prosailSoilMsg)
          else .error .assertionError
      else .error .assertionError
  else .error (.valueError factorMsg)

/-- A concrete stand-in canopy engine used to evaluate the driver at concrete
inputs: it reports the substrate spectrum it received in all four rows. -/
def stubSail : SailFn :=
  fun _ _ _ _ _ r0 _ _ _ _ _ => { r0 := r0, r1 := r0, r2 := r0, r3 := r0 }

/-! Branch-evaluation lemmas: one per terminal of `run_sail`'s control flow. -/

lemma run_sail_invalid_factor (sailFn : SailFn) (refl trans : Spectrum)
    (lai lidfa hspot tts tto psi : ℚ) (typelidf : ℤ) (lidfb : ℚ)
    (factor : String) (rsoil0 : Option Spectrum) (rsoil psoil : Option ℚ)
    (s1opt s2opt : Option Spectrum)
    (hf : pyUpper factor ∉ allowedFactors) :
    run_sail sailFn refl trans lai lidfa hspot tts tto psi typelidf lidfb
      factor rsoil0 rsoil psoil s1opt s2opt
      = .error (.valueError factorMsg) := by
  unfold run_sail
  simp [hf]

lemma run_sail_s1_none (sailFn : SailFn) (refl trans : Spectrum)
    (lai lidfa hspot tts tto psi : ℚ) (typelidf : ℤ) (lidfb : ℚ)
    (factor : String) (rsoil0 : Option Spectrum) (rsoil psoil : Option ℚ)
    (s2opt : Option Spectrum)
    (hf : pyUpper factor ∈ allowedFactors) :
    run_sail sailFn refl trans lai lidfa hspot tts tto psi typelidf lidfb
      factor rsoil0 rsoil psoil none s2opt
      = .error (.nameError "spectral_libs") := by
  unfold run_sail
  simp [hf]

lemma run_sail_s1_bad (sailFn : SailFn) (refl trans : Spectrum)
    (lai lidfa hspot tts tto psi : ℚ) (typelidf : ℤ) (lidfb : ℚ)
    (factor : String) (rsoil0 : Option Spectrum) (rsoil psoil : Option ℚ)
    (l1 : Spectrum) (s2opt : Option Spectrum)
    (hf : pyUpper factor ∈ allowedFactors)
    (h1 : l1.length ≠ 2101) :
    run_sail sailFn refl trans lai lidfa hspot tts tto psi typelidf lidfb
      factor rsoil0 rsoil psoil (some l1) s2opt
      = .error .assertionError := by
  unfold run_sail
  simp [hf, h1]

lemma run_sail_s2_none (sailFn : SailFn) (refl trans : Spectrum)
    (lai lidfa hspot tts tto psi : ℚ) (typelidf : ℤ) (lidfb : ℚ)
    (factor : String) (rsoil0 : Option Spectrum) (rsoil psoil : Option ℚ)
    (l1 : Spectrum)
    (hf : pyUpper factor ∈ allowedFactors)
    (h1 : l1.length = 2101) :
    run_sail sailFn refl trans lai lidfa hspot tts tto psi typelidf lidfb
      factor rsoil0 rsoil psoil (some l1) none
      = .error (.nameError "spectral_libs") := by
  unfold run_sail
  simp [hf, h1]

lemma run_sail_rsoil0_ok (sailFn : SailFn) (refl trans : Spectrum)
    (lai lidfa hspot tts tto psi : ℚ) (typelidf : ℤ) (lidfb : ℚ)
    (factor : String) (r0 : Spectrum) (rsoil psoil : Option ℚ)
    (l1 l2 : Spectrum)
    (hf : pyUpper factor ∈ allowedFactors)
    (h1 : l1.length = 2101) :
    run_sail sailFn refl trans lai lidfa hspot tts tto psi typelidf lidfb
      factor (some r0) rsoil psoil (some l1) (some l2)
      = .ok (factorSelect (pyUpper factor)
          (sailFn refl trans lai lidfa lidfb r0 hspot tts tto psi typelidf)) := by
  unfold run_sail
  simp [hf, h1]

lemma run_sail_mix_ok (sailFn : SailFn) (refl trans : Spectrum)
    (lai lidfa hspot tts tto psi : ℚ) (typelidf : ℤ) (lidfb : ℚ)
    (factor : String) (rs ps : ℚ) (l1 l2 : Spectrum)
    (hf : pyUpper factor ∈ allowedFactors)
    (h1 : l1.length = 2101) :
    run_sail sailFn refl trans lai lidfa hspot tts tto psi typelidf lidfb
      factor none (some rs) (some ps) (some l1) (some l2)
      = .ok (factorSelect (pyUpper factor)
          (sailFn refl trans lai lidfa lidfb (soilMix l1 l2 rs ps)
            hspot tts tto psi typelidf)) := by
  unfold run_sail
  simp [hf, h1]

lemma run_sail_soil_underspec (sailFn : SailFn) (refl trans : Spectrum)
    (lai lidfa hspot tts tto psi : ℚ) (typelidf : ℤ) (lidfb : ℚ)
    (factor : String) (rsoil psoil : Option ℚ) (l1 l2 : Spectrum)
    (hf : pyUpper factor ∈ allowedFactors)
    (h1 : l1.length = 2101)
    (hscal : rsoil = none ∨ psoil = none) :
    run_sail sailFn refl trans lai lidfa hspot tts tto psi typelidf lidfb
      factor none rsoil psoil (some l1) (some l2)
      = .error (.valueError sailSoilMsg) := by
  unfold run_sail
  rcases hscal with h | h
  · subst h
    cases psoil <;> simp [hf, h1]
  · subst h
    cases rsoil <;> simp [hf, h1]

/-! Branch-evaluation lemmas for `run_prosail`. -/

lemma run_prosail_invalid_factor
    (n cab car cbrown cw cm lai lidfa hspot tts tto psi ant alpha : ℚ)
    (prospect_version : String) (typelidf : ℤ) (lidfb : ℚ) (factor : String)
    (rsoil0 : Option Spectrum) (rsoil psoil : Option ℚ)
    (s1opt s2opt : Option Spectrum)
    (hf : pyUpper factor ∉ allowedFactors) :
    run_prosail n cab car cbrown cw cm lai lidfa hspot tts tto psi ant alpha
      prospect_version typelidf lidfb factor rsoil0 rsoil psoil s1opt s2opt
      = .error (.valueError factorMsg) := by
  unfold run_prosail
  simp [hf]

lemma run_prosail_s1_none
    (n cab car cbrown cw cm lai lidfa hspot tts tto psi ant alpha : ℚ)
    (prospect_version : String) (typelidf : ℤ) (lidfb : ℚ) (factor : String)
    (rsoil0 : Option Spectrum) (rsoil psoil : Option ℚ) (s2opt : Option Spectrum)
    (hf : pyUpper factor ∈ allowedFactors) :
    run_prosail n cab car cbrown cw cm lai lidfa hspot tts tto psi ant alpha
      prospect_version typelidf lidfb factor rsoil0 rsoil psoil none s2opt
      = .error (.nameError "spectral_libs") := by
  unfold run_prosail
  simp [hf]

lemma run_prosail_s1_bad
    (n cab car cbrown cw cm lai lidfa hspot tts tto psi ant alpha : ℚ)
    (prospect_version : String) (typelidf : ℤ) (lidfb : ℚ) (factor : String)
    (rsoil0 : Option Spectrum) (rsoil psoil : Option ℚ)
    (l1 : Spectrum) (s2opt : Option Spectrum)
    (hf : pyUpper factor ∈ allowedFactors) (h1 : l1.length ≠ 2101) :
    run_prosail n cab car cbrown cw cm lai lidfa hspot tts tto psi ant alpha
      prospect_version typelidf lidfb factor rsoil0 rsoil psoil (some l1) s2opt
      = .error .assertionError := by
  unfold run_prosail
  simp [hf, h1]

lemma run_prosail_s2_none
    (n cab car cbrown cw cm lai lidfa hspot tts tto psi ant alpha : ℚ)
    (prospect_version : String) (typelidf : ℤ) (lidfb : ℚ) (factor : String)
    (rsoil0 : Option Spectrum) (rsoil psoil : Option ℚ) (l1 : Spectrum)
    (hf : pyUpper factor ∈ allowedFactors) (h1 : l1.length = 2101) :
    run_prosail n cab car cbrown cw cm lai lidfa hspot tts tto psi ant alpha
      prospect_version typelidf lidfb factor rsoil0 rsoil psoil (some l1) none
      = .error (.nameError "spectral_libs") := by
  unfold run_prosail
  simp [hf, h1]

lemma run_prosail_rsoil0_nr
    (n cab car cbrown cw cm lai lidfa hspot tts tto psi ant alpha : ℚ)
    (prospect_version : String) (typelidf : ℤ) (lidfb : ℚ) (factor : String)
    (r0 : Spectrum) (rsoil psoil : Option ℚ) (l1 l2 : Spectrum)
    (hf : pyUpper factor ∈ allowedFactors) (h1 : l1.length = 2101) :
    run_prosail n cab car cbrown cw cm lai lidfa hspot tts tto psi ant alpha
      prospect_version typelidf lidfb factor (some r0) rsoil psoil
      (some l1) (some l2)
      = .error (.nameError "nr") := by
  unfold run_prosail
  simp [hf, h1]

lemma run_prosail_mix_nr
    (n cab car cbrown cw cm lai lidfa hspot tts tto psi ant alpha : ℚ)
    (prospect_version : String) (typelidf : ℤ) (lidfb : ℚ) (factor : String)
    (rs ps : ℚ) (l1 l2 : Spectrum)
    (hf : pyUpper factor ∈ allowedFactors) (h1 : l1.length = 2101) :
    run_prosail n cab car cbrown cw cm lai lidfa hspot tts tto psi ant alpha
      prospect_version typelidf lidfb factor none (some rs) (some ps)
      (some l1) (some l2)
      = .error (.nameError "nr") := by
  unfold run_prosail
  simp [hf, h1]

lemma run_prosail_soil_underspec
    (n cab car cbrown cw cm lai lidfa hspot tts tto psi ant alpha : ℚ)
    (prospect_version : String) (typelidf : ℤ) (lidfb : ℚ) (factor : String)
    (rsoil psoil : Option ℚ) (l1 l2 : Spectrum)
    (hf : pyUpper factor ∈ allowedFactors) (h1 : l1.length = 2101)
    (hscal : rsoil = none ∨ psoil = none) :
    run_prosail n cab car cbrown cw cm lai lidfa hspot tts tto psi ant alpha
      prospect_version typelidf lidfb factor none rsoil psoil
      (some l1) (some l2)
      = .error (.valueError prosailSoilMsg) := by
  unfold run_prosail
  rcases hscal with h | h
  · subst h
    cases psoil <;> simp [hf, h1]
  · subst h
    cases rsoil <;> simp [hf, h1]

lemma run_sail_valid_ne_factorMsg (sailFn : SailFn) (refl trans : Spectrum)
    (lai lidfa hspot tts tto psi : ℚ) (typelidf : ℤ) (lidfb : ℚ)
    (factor : String) (rsoil0 : Option Spectrum) (rsoil psoil : Option ℚ)
    (s1opt s2opt : Option Spectrum)
    (hf : pyUpper factor ∈ allowedFactors) :
    run_sail sailFn refl trans lai lidfa hspot tts tto psi typelidf lidfb
      factor rsoil0 rsoil psoil s1opt s2opt
      ≠ .error (.valueError factorMsg) := by
  have hfc : allowedFactors.contains (pyUpper factor) = true := by simpa using hf
  intro h
  unfold run_sail at h
  simp only [hfc, if_true] at h
  rcases s1opt with _ | l1
  · simp at h
  · by_cases hl : l1.length = 2101
    · rcases s2opt with _ | l2
      · simp [hl] at h
      · rcases rsoil0 with _ | r0
        · rcases rsoil with _ | rs
          · simp [hl] at h
            exact absurd h (by decide)
          · rcases psoil with _ | ps
            · simp [hl] at h
              exact absurd h (by decide)
            · simp [hl] at h
        · simp [hl] at h
    · simp [hl] at h

lemma run_prosail_valid_ne_factorMsg
    (n cab car cbrown cw cm lai lidfa hspot tts tto psi ant alpha : ℚ)
    (prospect_version : String) (typelidf : ℤ) (lidfb : ℚ) (factor : String)
    (rsoil0 : Option Spectrum) (rsoil psoil : Option ℚ)
    (s1opt s2opt : Option Spectrum)
    (hf : pyUpper factor ∈ allowedFactors) :
    run_prosail n cab car cbrown cw cm lai lidfa hspot tts tto psi ant alpha
      prospect_version typelidf lidfb factor rsoil0 rsoil psoil s1opt s2opt
      ≠ .error (.valueError factorMsg) := by
  have hfc : allowedFactors.contains (pyUpper factor) = true := by simpa using hf
  intro h
  unfold run_prosail at h
  simp only [hfc, if_true] at h
  rcases s1opt with _ | l1
  · simp at h
  · by_cases hl : l1.length = 2101
    · rcases s2opt with _ | l2
      · simp [hl] at h
      · rcases rsoil0 with _ | r0
        · rcases rsoil with _ | rs
          · simp [hl] at h
            exact absurd h (by decide)
          · rcases psoil with _ | ps
            · simp [hl] at h
              exact absurd h (by decide)
            · simp [hl] at h
        · simp [hl] at h
    · simp [hl] at h

/-! Algebraic lemmas about the soil mixture. -/

lemma soilMix_length (s1 s2 : Spectrum) (rs ps : ℚ) :
    (soilMix s1 s2 rs ps).length = min s1.length s2.length := by
  simp [soilMix, smul, addSpec]

lemma soilMix_getD (s1 : Spectrum) :
    ∀ (s2 : Spectrum) (rs ps : ℚ) (i : ℕ), i < s1.length → i < s2.length →
      (soilMix s1 s2 rs ps).getD i 0
        = rs * (ps * s1.getD i 0 + (1 - ps) * s2.getD i 0) := by
  induction s1 with
  | nil =>
    intro s2 rs ps i h1 h2
    simp at h1
  | cons a t1 ih =>
    intro s2 rs ps i h1 h2
    cases s2 with
    | nil => simp at h2
    | cons b t2 =>
      cases i with
      | zero => simp [soilMix, smul, addSpec]
      | succ j =>
        have := ih t2 rs ps j (by simpa using h1) (by simpa using h2)
        simpa [soilMix, smul, addSpec] using this

lemma soilMix_one_one (s1 : Spectrum) :
    ∀ s2 : Spectrum, s1.length = s2.length → soilMix s1 s2 1 1 = s1 := by
  induction s1 with
  | nil => intro s2 h; simp [soilMix, smul, addSpec]
  | cons a t1 ih =>
    intro s2 h
    cases s2 with
    | nil => simp at h
    | cons b t2 =>
      have ht := ih t2 (by simpa using h)
      simp [soilMix, smul, addSpec] at ht ⊢
      exact ht

lemma soilMix_one_zero (s1 : Spectrum) :
    ∀ s2 : Spectrum, s1.length = s2.length → soilMix s1 s2 1 0 = s2 := by
  induction s1 with
  | nil =>
    intro s2 h
    cases s2 with
    | nil => simp [soilMix, smul, addSpec]
    | cons b t2 => simp at h
  | cons a t1 ih =>
    intro s2 h
    cases s2 with
    | nil => simp at h
    | cons b t2 =>
      have ht := ih t2 (by simpa using h)
      simp [soilMix, smul, addSpec] at ht ⊢
      exact ht

/-! Claim theorems. -/

/-- C1: contrary to the claim, the drivers do not reject every malformed
spectrum.  Because the length assertion for `soil_spectrum2` re-checks
`soil_spectrum1` (line 197) and `rsoil0` is never length-checked, a call with
a 2100-element `soil_spectrum2` (first conjunct) and a call with a
2100-element `rsoil0` (second conjunct) both pass validation and complete,
running the canopy model instead of failing with the malformed-spectrum
assertion. -/
theorem malformed_spectrum_accepted :
    (run_sail stubSail [] [] 0 0 0 0 0 0 2 0 "SDR"
        (some (List.replicate 2101 (0:ℚ))) none none
        (some (List.replicate 2101 (0:ℚ))) (some (List.replicate 2100 (0:ℚ)))
        = Except.ok (SailOutput.spectrum (List.replicate 2101 (0:ℚ))))
    ∧ (run_sail stubSail [] [] 0 0 0 0 0 0 2 0 "SDR"
        (some (List.replicate 2100 (0:ℚ))) none none
        (some (List.replicate 2101 (0:ℚ))) (some (List.replicate 2101 (0:ℚ)))
        = Except.ok (SailOutput.spectrum (List.replicate 2100 (0:ℚ)))) := by
  have hup : pyUpper "SDR" = "SDR" := by decide
  constructor
  · have h := run_sail_rsoil0_ok stubSail [] [] 0 0 0 0 0 0 2 0 "SDR"
      (List.replicate 2101 (0:ℚ)) none none (List.replicate 2101 (0:ℚ))
      (List.replicate 2100 (0:ℚ)) (by decide) (by simp)
    rw [hup] at h
    exact h.trans (by rfl)
  · have h := run_sail_rsoil0_ok stubSail [] [] 0 0 0 0 0 0 2 0 "SDR"
      (List.replicate 2100 (0:ℚ)) none none (List.replicate 2101 (0:ℚ))
      (List.replicate 2101 (0:ℚ)) (by decide) (by simp)
    rw [hup] at h
    exact h.trans (by rfl)

/-- C2: for all arguments, run_sail (resp. run_prosail) fails with the
ValueError naming the allowed factor set exactly when the upper-cased factor
selector is outside SDR, BHR, DHR, HDR, ALL.  The equivalence holds for every
value of the soil arguments, including malformed ones, so the invalid-selector
failure precedes soil resolution and any physics; conversely every casing of
the five names passes the selector validation. -/
theorem invalid_selector_iff (sailFn : SailFn) (refl trans : Spectrum)
    (lai lidfa hspot tts tto psi : ℚ) (typelidf : ℤ) (lidfb : ℚ)
    (n cab car cbrown cw cm ant alpha : ℚ) (prospect_version : String)
    (factor : String) (rsoil0 : Option Spectrum) (rsoil psoil : Option ℚ)
    (s1opt s2opt : Option Spectrum) :
    (run_sail sailFn refl trans lai lidfa hspot tts tto psi typelidf lidfb
        factor rsoil0 rsoil psoil s1opt s2opt
        = .error (.valueError factorMsg) ↔ pyUpper factor ∉ allowedFactors)
    ∧ (run_prosail n cab car cbrown cw cm lai lidfa hspot tts tto psi ant alpha
        prospect_version typelidf lidfb factor rsoil0 rsoil psoil s1opt s2opt
        = .error (.valueError factorMsg) ↔ pyUpper factor ∉ allowedFactors) := by
  constructor
  · constructor
    · intro h
      by_contra hmem
      exact run_sail_valid_ne_factorMsg sailFn refl trans lai lidfa hspot tts
        tto psi typelidf lidfb factor rsoil0 rsoil psoil s1opt s2opt hmem h
    · intro hf
      exact run_sail_invalid_factor sailFn refl trans lai lidfa hspot tts tto
        psi typelidf lidfb factor rsoil0 rsoil psoil s1opt s2opt hf
  · constructor
    · intro h
      by_contra hmem
      exact run_prosail_valid_ne_factorMsg n cab car cbrown cw cm lai lidfa
        hspot tts tto psi ant alpha prospect_version typelidf lidfb factor
        rsoil0 rsoil psoil s1opt s2opt hmem h
    · intro hf
      exact run_prosail_invalid_factor n cab car cbrown cw cm lai lidfa hspot
        tts tto psi ant alpha prospect_version typelidf lidfb factor rsoil0
        rsoil psoil s1opt s2opt hf

/-- C4: whenever rsoil0 is omitted and both mixing scalars and both
2101-element component spectra are supplied, run_sail hands the canopy engine
exactly the spectrum `rsoil * (psoil * soil_spectrum1 + (1-psoil) *
soil_spectrum2)`, which has 2101 elements and satisfies the mixing formula
elementwise at every wavelength index. -/
theorem soil_mixing_formula (sailFn : SailFn) (refl trans : Spectrum)
    (lai lidfa hspot tts tto psi : ℚ) (typelidf : ℤ) (lidfb : ℚ)
    (factor : String) (rs ps : ℚ) (s1 s2 : Spectrum)
    (hf : pyUpper factor ∈ allowedFactors)
    (h1 : s1.length = 2101) (h2 : s2.length = 2101) :
    run_sail sailFn refl trans lai lidfa hspot tts tto psi typelidf lidfb
      factor none (some rs) (some ps) (some s1) (some s2)
      = .ok (factorSelect (pyUpper factor)
          (sailFn refl trans lai lidfa lidfb (soilMix s1 s2 rs ps)
            hspot tts tto psi typelidf))
    ∧ (soilMix s1 s2 rs ps).length = 2101
    ∧ ∀ i, i < 2101 → (soilMix s1 s2 rs ps).getD i 0
        = rs * (ps * s1.getD i 0 + (1 - ps) * s2.getD i 0) := by
  refine ⟨run_sail_mix_ok sailFn refl trans lai lidfa hspot tts tto psi
    typelidf lidfb factor rs ps s1 s2 hf h1, ?_, ?_⟩
  · simp [soilMix_length, h1, h2]
  · intro i hi
    exact soilMix_getD s1 s2 rs ps i (by rw [h1]; exact hi) (by rw [h2]; exact hi)

/-- C4 witness: the mixing-path theorem evaluated at a concrete call. -/
theorem soil_mixing_formula_witness :
    run_sail stubSail [] [] 0 0 0 0 0 0 2 0 "SDR"
      none (some 2) (some 3)
      (some (List.replicate 2101 (4:ℚ))) (some (List.replicate 2101 (8:ℚ)))
      = .ok (factorSelect (pyUpper "SDR")
          (stubSail [] [] 0 0 0
            (soilMix (List.replicate 2101 (4:ℚ)) (List.replicate 2101 (8:ℚ)) 2 3)
            0 0 0 0 2))
    ∧ (soilMix (List.replicate 2101 (4:ℚ)) (List.replicate 2101 (8:ℚ)) 2 3).length = 2101
    ∧ ∀ i, i < 2101 →
        (soilMix (List.replicate 2101 (4:ℚ)) (List.replicate 2101 (8:ℚ)) 2 3).getD i 0
          = 2 * (3 * (List.replicate 2101 (4:ℚ)).getD i 0
              + (1 - 3) * (List.replicate 2101 (8:ℚ)).getD i 0) :=
  soil_mixing_formula stubSail [] [] 0 0 0 0 0 0 2 0 "SDR" 2 3
    (List.replicate 2101 (4:ℚ)) (List.replicate 2101 (8:ℚ))
    (by decide) (by simp) (by simp)

/-- C5: mixing two 2101-element spectra with brightness 1 and moisture 1
returns the first spectrum exactly, and with brightness 1 and moisture 0
returns the second spectrum exactly. -/
theorem soil_mix_boundary (s1 s2 : Spectrum)
    (h1 : s1.length = 2101) (h2 : s2.length = 2101) :
    soilMix s1 s2 1 1 = s1 ∧ soilMix s1 s2 1 0 = s2 :=
  ⟨soilMix_one_one s1 s2 (h1.trans h2.symm),
   soilMix_one_zero s1 s2 (h1.trans h2.symm)⟩

/-- C5 witness: the boundary-moisture identities at concrete spectra. -/
theorem soil_mix_boundary_witness :
    soilMix (List.replicate 2101 (3:ℚ)) (List.replicate 2101 (5:ℚ)) 1 1
      = List.replicate 2101 (3:ℚ)
    ∧ soilMix (List.replicate 2101 (3:ℚ)) (List.replicate 2101 (5:ℚ)) 1 0
      = List.replicate 2101 (5:ℚ) :=
  soil_mix_boundary (List.replicate 2101 (3:ℚ)) (List.replicate 2101 (5:ℚ))
    (by simp) (by simp)

/-- C3 counterexample: a call with rsoil0, rsoil and psoil all omitted but a
malformed soil_spectrum1 of length 1 fails with the malformed-spectrum
assertion itself, not with an error distinct from it, refuting the claim as
stated at this input. -/
theorem underspecified_soil_cex :
    ¬ ∃ e, run_sail stubSail [] [] 0 0 0 0 0 0 2 0 "SDR" none none none
        (some [0]) (some (List.replicate 2101 (0:ℚ))) = Except.error e
        ∧ e ≠ PyErr.assertionError := by
  intro hcl
  rcases hcl with ⟨e, he, hne⟩
  have hv : run_sail stubSail [] [] 0 0 0 0 0 0 2 0 "SDR" none none none
      (some [0]) (some (List.replicate 2101 (0:ℚ)))
      = Except.error PyErr.assertionError :=
    run_sail_s1_bad stubSail [] [] 0 0 0 0 0 0 2 0 "SDR" none none none [0]
      (some (List.replicate 2101 (0:ℚ))) (by decide) (by decide)
  rw [hv] at he
  injection he with he2
  exact hne he2.symm

/-- C3 (amended): whenever rsoil0 is omitted together with at least one of
the mixing scalars, every run_sail and run_prosail call fails before any
physics; provided any supplied soil_spectrum1 passes its length assertion,
the error raised is distinct from the malformed-spectrum assertion failure
(it is the underspecified-soil ValueError, the invalid-selector ValueError,
or the NameError for the unreachable default spectra). -/
theorem underspecified_soil_fails (sailFn : SailFn) (refl trans : Spectrum)
    (lai lidfa hspot tts tto psi : ℚ) (typelidf : ℤ) (lidfb : ℚ)
    (n cab car cbrown cw cm ant alpha : ℚ) (prospect_version : String)
    (factor : String) (rsoil psoil : Option ℚ) (s1opt s2opt : Option Spectrum)
    (hscal : rsoil = none ∨ psoil = none)
    (h1 : ∀ l, s1opt = some l → l.length = 2101) :
    (∃ e, run_sail sailFn refl trans lai lidfa hspot tts tto psi typelidf lidfb
        factor none rsoil psoil s1opt s2opt = .error e
        ∧ e ≠ PyErr.assertionError)
    ∧ (∃ e, run_prosail n cab car cbrown cw cm lai lidfa hspot tts tto psi ant
        alpha prospect_version typelidf lidfb factor none rsoil psoil s1opt s2opt
        = .error e ∧ e ≠ PyErr.assertionError) := by
  by_cases hf : pyUpper factor ∈ allowedFactors
  · cases s1opt with
    | none =>
      exact ⟨⟨.nameError "spectral_libs",
        run_sail_s1_none sailFn refl trans lai lidfa hspot tts tto psi typelidf
          lidfb factor none rsoil psoil s2opt hf, by simp⟩,
        ⟨.nameError "spectral_libs",
        run_prosail_s1_none n cab car cbrown cw cm lai lidfa hspot tts tto psi
          ant alpha prospect_version typelidf lidfb factor none rsoil psoil
          s2opt hf, by simp⟩⟩
    | some l1 =>
      have hl : l1.length = 2101 := h1 l1 rfl
      cases s2opt with
      | none =>
        exact ⟨⟨.nameError "spectral_libs",
          run_sail_s2_none sailFn refl trans lai lidfa hspot tts tto psi
            typelidf lidfb factor none rsoil psoil l1 hf hl, by simp⟩,
          ⟨.nameError "spectral_libs",
          run_prosail_s2_none n cab car cbrown cw cm lai lidfa hspot tts tto
            psi ant alpha prospect_version typelidf lidfb factor none rsoil
            psoil l1 hf hl, by simp⟩⟩
      | some l2 =>
        exact ⟨⟨.valueError sailSoilMsg,
          run_sail_soil_underspec sailFn refl trans lai lidfa hspot tts tto psi
            typelidf lidfb factor rsoil psoil l1 l2 hf hl hscal, by simp⟩,
          ⟨.valueError prosailSoilMsg,
          run_prosail_soil_underspec n cab car cbrown cw cm lai lidfa hspot tts
            tto psi ant alpha prospect_version typelidf lidfb factor rsoil
            psoil l1 l2 hf hl hscal, by simp⟩⟩
  · exact ⟨⟨.valueError factorMsg,
      run_sail_invalid_factor sailFn refl trans lai lidfa hspot tts tto psi
        typelidf lidfb factor none rsoil psoil s1opt s2opt hf, by simp⟩,
      ⟨.valueError factorMsg,
      run_prosail_invalid_factor n cab car cbrown cw cm lai lidfa hspot tts tto
        psi ant alpha prospect_version typelidf lidfb factor none rsoil psoil
        s1opt s2opt hf, by simp⟩⟩

/-- C3 witness: the amended theorem evaluated at a concrete underspecified
call (well-formed spectra supplied, both scalars omitted). -/
theorem underspecified_soil_fails_witness :
    (∃ e, run_sail stubSail [] [] 0 0 0 0 0 0 2 0 "SDR" none none none
        (some (List.replicate 2101 (0:ℚ))) (some (List.replicate 2101 (0:ℚ)))
        = .error e ∧ e ≠ PyErr.assertionError)
    ∧ (∃ e, run_prosail 1 1 1 1 1 1 0 0 0 0 0 0 0 40 "5" 2 0 "SDR" none none
        none (some (List.replicate 2101 (0:ℚ))) (some (List.replicate 2101 (0:ℚ)))
        = .error e ∧ e ≠ PyErr.assertionError) :=
  underspecified_soil_fails stubSail [] [] 0 0 0 0 0 0 2 0 1 1 1 1 1 1 0 40 "5"
    "SDR" none none (some (List.replicate 2101 (0:ℚ)))
    (some (List.replicate 2101 (0:ℚ))) (Or.inl rfl)
    (fun l hl => by injection hl with hl2; rw [← hl2]; simp)

/-- C6 counterexample: with rsoil0 supplied (2101 elements) but a malformed
soil_spectrum1 of length 1 also supplied, the call does not pass rsoil0 to
the canopy model: it fails with the length assertion instead, refuting the
"regardless of whatever values the other soil arguments carry" part of the
claim. -/
theorem rsoil0_verbatim_cex :
    run_sail stubSail [] [] 0 0 0 0 0 0 2 0 "SDR"
        (some (List.replicate 2101 (1:ℚ))) (some 2) (some 3)
        (some [0]) (some (List.replicate 2101 (0:ℚ)))
      ≠ Except.ok (factorSelect (pyUpper "SDR")
          (stubSail [] [] 0 0 0 (List.replicate 2101 (1:ℚ)) 0 0 0 0 2)) := by
  have hv := run_sail_s1_bad stubSail [] [] 0 0 0 0 0 0 2 0 "SDR"
      (some (List.replicate 2101 (1:ℚ))) (some 2) (some 3) [0]
      (some (List.replicate 2101 (0:ℚ))) (by decide) (by decide)
  rw [hv]
  simp

/-- C6 (amended): for every call with a valid factor, a supplied
soil_spectrum1 of 2101 elements and a supplied soil_spectrum2, a supplied
rsoil0 is passed verbatim (unmodified, never length-checked) as the substrate
reflectance to the canopy model, with no mixing performed, regardless of the
values of rsoil and psoil and of soil_spectrum2's contents. -/
theorem rsoil0_verbatim (sailFn : SailFn) (refl trans : Spectrum)
    (lai lidfa hspot tts tto psi : ℚ) (typelidf : ℤ) (lidfb : ℚ)
    (factor : String) (r0 : Spectrum) (rsoil psoil : Option ℚ) (l1 l2 : Spectrum)
    (hf : pyUpper factor ∈ allowedFactors) (h1 : l1.length = 2101) :
    run_sail sailFn refl trans lai lidfa hspot tts tto psi typelidf lidfb
      factor (some r0) rsoil psoil (some l1) (some l2)
      = .ok (factorSelect (pyUpper factor)
          (sailFn refl trans lai lidfa lidfb r0 hspot tts tto psi typelidf)) :=
  run_sail_rsoil0_ok sailFn refl trans lai lidfa hspot tts tto psi typelidf
    lidfb factor r0 rsoil psoil l1 l2 hf h1

/-- C6 witness: rsoil0 passed through verbatim at a concrete call, with
rsoil, psoil set and soil_spectrum2 an empty list (its contents are
irrelevant because the source never checks them on this path). -/
theorem rsoil0_verbatim_witness :
    run_sail stubSail [] [] 0 0 0 0 0 0 2 0 "SDR"
        (some (List.replicate 2101 (5:ℚ))) (some 7) (some 9)
        (some (List.replicate 2101 (0:ℚ))) (some [])
      = Except.ok (factorSelect (pyUpper "SDR")
          (stubSail [] [] 0 0 0 (List.replicate 2101 (5:ℚ)) 0 0 0 0 2)) :=
  rsoil0_verbatim stubSail [] [] 0 0 0 0 0 0 2 0 "SDR"
    (List.replicate 2101 (5:ℚ)) (some 7) (some 9)
    (List.replicate 2101 (0:ℚ)) [] (by decide) (by simp)

/-- Shared dispatch lemma: the five factor names select the five outputs on
the rsoil0-supplied path. -/
lemma run_sail_dispatch_rows (sailFn : SailFn) (refl trans : Spectrum)
    (lai lidfa hspot tts tto psi : ℚ) (typelidf : ℤ) (lidfb : ℚ)
    (r0 : Spectrum) (rsoil psoil : Option ℚ) (l1 l2 : Spectrum)
    (h1 : l1.length = 2101) :
    (run_sail sailFn refl trans lai lidfa hspot tts tto psi typelidf lidfb
      "SDR" (some r0) rsoil psoil (some l1) (some l2)
      = .ok (.spectrum (sailFn refl trans lai lidfa lidfb r0 hspot tts tto psi
          typelidf).r0))
    ∧ (run_sail sailFn refl trans lai lidfa hspot tts tto psi typelidf lidfb
      "BHR" (some r0) rsoil psoil (some l1) (some l2)
      = .ok (.spectrum (sailFn refl trans lai lidfa lidfb r0 hspot tts tto psi
          typelidf).r1))
    ∧ (run_sail sailFn refl trans lai lidfa hspot tts tto psi typelidf lidfb
      "DHR" (some r0) rsoil psoil (some l1) (some l2)
      = .ok (.spectrum (sailFn refl trans lai lidfa lidfb r0 hspot tts tto psi
          typelidf).r2))
    ∧ (run_sail sailFn refl trans lai lidfa hspot tts tto psi typelidf lidfb
      "HDR" (some r0) rsoil psoil (some l1) (some l2)
      = .ok (.spectrum (sailFn refl trans lai lidfa lidfb r0 hspot tts tto psi
          typelidf).r3))
    ∧ (run_sail sailFn refl trans lai lidfa hspot tts tto psi typelidf lidfb
      "ALL" (some r0) rsoil psoil (some l1) (some l2)
      = .ok (.matrix (sailFn refl trans lai lidfa lidfb r0 hspot tts tto psi
          typelidf))) := by
  refine ⟨?_, ?_, ?_, ?_, ?_⟩
  · have h := run_sail_rsoil0_ok sailFn refl trans lai lidfa hspot tts tto psi
      typelidf lidfb "SDR" r0 rsoil psoil l1 l2 (by decide) h1
    rw [show pyUpper "SDR" = "SDR" from by decide] at h
    exact h.trans (by rfl)
  · have h := run_sail_rsoil0_ok sailFn refl trans lai lidfa hspot tts tto psi
      typelidf lidfb "BHR" r0 rsoil psoil l1 l2 (by decide) h1
    rw [show pyUpper "BHR" = "BHR" from by decide] at h
    exact h.trans (by rfl)
  · have h := run_sail_rsoil0_ok sailFn refl trans lai lidfa hspot tts tto psi
      typelidf lidfb "DHR" r0 rsoil psoil l1 l2 (by decide) h1
    rw [show pyUpper "DHR" = "DHR" from by decide] at h
    exact h.trans (by rfl)
  · have h := run_sail_rsoil0_ok sailFn refl trans lai lidfa hspot tts tto psi
      typelidf lidfb "HDR" r0 rsoil psoil l1 l2 (by decide) h1
    rw [show pyUpper "HDR" = "HDR" from by decide] at h
    exact h.trans (by rfl)
  · have h := run_sail_rsoil0_ok sailFn refl trans lai lidfa hspot tts tto psi
      typelidf lidfb "ALL" r0 rsoil psoil l1 l2 (by decide) h1
    rw [show pyUpper "ALL" = "ALL" from by decide] at h
    exact h.trans (by rfl)

/-- C7: on the rsoil0-supplied path (the mixing path is covered by the C4
theorem), the returned value is selected from the canopy model's four-row
result in the fixed positional order: SDR row 0, BHR row 1, DHR row 2, HDR
row 3, and ALL the whole four-row result. -/
theorem factor_dispatch (sailFn : SailFn) (refl trans : Spectrum)
    (lai lidfa hspot tts tto psi : ℚ) (typelidf : ℤ) (lidfb : ℚ)
    (r0 : Spectrum) (rsoil psoil : Option ℚ) (l1 l2 : Spectrum)
    (h1 : l1.length = 2101) :
    (run_sail sailFn refl trans lai lidfa hspot tts tto psi typelidf lidfb
      "SDR" (some r0) rsoil psoil (some l1) (some l2)
      = .ok (.spectrum (sailFn refl trans lai lidfa lidfb r0 hspot tts tto psi
          typelidf).r0))
    ∧ (run_sail sailFn refl trans lai lidfa hspot tts tto psi typelidf lidfb
      "BHR" (some r0) rsoil psoil (some l1) (some l2)
      = .ok (.spectrum (sailFn refl trans lai lidfa lidfb r0 hspot tts tto psi
          typelidf).r1))
    ∧ (run_sail sailFn refl trans lai lidfa hspot tts tto psi typelidf lidfb
      "DHR" (some r0) rsoil psoil (some l1) (some l2)
      = .ok (.spectrum (sailFn refl trans lai lidfa lidfb r0 hspot tts tto psi
          typelidf).r2))
    ∧ (run_sail sailFn refl trans lai lidfa hspot tts tto psi typelidf lidfb
      "HDR" (some r0) rsoil psoil (some l1) (some l2)
      = .ok (.spectrum (sailFn refl trans lai lidfa lidfb r0 hspot tts tto psi
          typelidf).r3))
    ∧ (run_sail sailFn refl trans lai lidfa hspot tts tto psi typelidf lidfb
      "ALL" (some r0) rsoil psoil (some l1) (some l2)
      = .ok (.matrix (sailFn refl trans lai lidfa lidfb r0 hspot tts tto psi
          typelidf))) :=
  run_sail_dispatch_rows sailFn refl trans lai lidfa hspot tts tto psi typelidf
    lidfb r0 rsoil psoil l1 l2 h1

/-- C7 witness: the dispatch theorem evaluated at a concrete call. -/
theorem factor_dispatch_witness :
    (run_sail stubSail [] [] 0 0 0 0 0 0 2 0 "SDR"
      (some (List.replicate 2101 (2:ℚ))) none none
      (some (List.replicate 2101 (0:ℚ))) (some (List.replicate 2101 (0:ℚ)))
      = .ok (.spectrum (stubSail [] [] 0 0 0 (List.replicate 2101 (2:ℚ))
          0 0 0 0 2).r0))
    ∧ (run_sail stubSail [] [] 0 0 0 0 0 0 2 0 "BHR"
      (some (List.replicate 2101 (2:ℚ))) none none
      (some (List.replicate 2101 (0:ℚ))) (some (List.replicate 2101 (0:ℚ)))
      = .ok (.spectrum (stubSail [] [] 0 0 0 (List.replicate 2101 (2:ℚ))
          0 0 0 0 2).r1))
    ∧ (run_sail stubSail [] [] 0 0 0 0 0 0 2 0 "DHR"
      (some (List.replicate 2101 (2:ℚ))) none none
      (some (List.replicate 2101 (0:ℚ))) (some (List.replicate 2101 (0:ℚ)))
      = .ok (.spectrum (stubSail [] [] 0 0 0 (List.replicate 2101 (2:ℚ))
          0 0 0 0 2).r2))
    ∧ (run_sail stubSail [] [] 0 0 0 0 0 0 2 0 "HDR"
      (some (List.replicate 2101 (2:ℚ))) none none
      (some (List.replicate 2101 (0:ℚ))) (some (List.replicate 2101 (0:ℚ)))
      = .ok (.spectrum (stubSail [] [] 0 0 0 (List.replicate 2101 (2:ℚ))
          0 0 0 0 2).r3))
    ∧ (run_sail stubSail [] [] 0 0 0 0 0 0 2 0 "ALL"
      (some (List.replicate 2101 (2:ℚ))) none none
      (some (List.replicate 2101 (0:ℚ))) (some (List.replicate 2101 (0:ℚ)))
      = .ok (.matrix (stubSail [] [] 0 0 0 (List.replicate 2101 (2:ℚ))
          0 0 0 0 2))) :=
  factor_dispatch stubSail [] [] 0 0 0 0 0 0 2 0 (List.replicate 2101 (2:ℚ))
    none none (List.replicate 2101 (0:ℚ)) (List.replicate 2101 (0:ℚ)) (by simp)

/-- C8: if a run_sail call with factor "ALL" returns a four-row structure,
then the calls with factors "SDR", "BHR", "DHR", "HDR" and identical other
arguments return exactly its rows 0, 1, 2, 3 respectively (the canopy engine
being a deterministic function argument). -/
theorem all_rows_consistent (sailFn : SailFn) (refl trans : Spectrum)
    (lai lidfa hspot tts tto psi : ℚ) (typelidf : ℤ) (lidfb : ℚ)
    (r0 : Spectrum) (rsoil psoil : Option ℚ) (l1 l2 : Spectrum) (rho : Rho)
    (h1 : l1.length = 2101)
    (hall : run_sail sailFn refl trans lai lidfa hspot tts tto psi typelidf
        lidfb "ALL" (some r0) rsoil psoil (some l1) (some l2)
        = .ok (.matrix rho)) :
    (run_sail sailFn refl trans lai lidfa hspot tts tto psi typelidf lidfb
      "SDR" (some r0) rsoil psoil (some l1) (some l2) = .ok (.spectrum rho.r0))
    ∧ (run_sail sailFn refl trans lai lidfa hspot tts tto psi typelidf lidfb
      "BHR" (some r0) rsoil psoil (some l1) (some l2) = .ok (.spectrum rho.r1))
    ∧ (run_sail sailFn refl trans lai lidfa hspot tts tto psi typelidf lidfb
      "DHR" (some r0) rsoil psoil (some l1) (some l2) = .ok (.spectrum rho.r2))
    ∧ (run_sail sailFn refl trans lai lidfa hspot tts tto psi typelidf lidfb
      "HDR" (some r0) rsoil psoil (some l1) (some l2) = .ok (.spectrum rho.r3)) := by
  have hd := run_sail_dispatch_rows sailFn refl trans lai lidfa hspot tts tto
    psi typelidf lidfb r0 rsoil psoil l1 l2 h1
  have hmat := (hd.2.2.2.2).symm.trans hall
  simp only [Except.ok.injEq, SailOutput.matrix.injEq] at hmat
  rw [← hmat]
  exact ⟨hd.1, hd.2.1, hd.2.2.1, hd.2.2.2.1⟩

/-- C8 witness: the ALL-versus-individual consistency theorem evaluated at a
concrete call. -/
theorem all_rows_consistent_witness :
    (run_sail stubSail [] [] 0 0 0 0 0 0 2 0 "SDR"
      (some (List.replicate 2101 (1:ℚ))) none none
      (some (List.replicate 2101 (0:ℚ))) (some (List.replicate 2101 (0:ℚ)))
      = .ok (.spectrum (Rho.mk (List.replicate 2101 (1:ℚ))
          (List.replicate 2101 (1:ℚ)) (List.replicate 2101 (1:ℚ))
          (List.replicate 2101 (1:ℚ))).r0))
    ∧ (run_sail stubSail [] [] 0 0 0 0 0 0 2 0 "BHR"
      (some (List.replicate 2101 (1:ℚ))) none none
      (some (List.replicate 2101 (0:ℚ))) (some (List.replicate 2101 (0:ℚ)))
      = .ok (.spectrum (Rho.mk (List.replicate 2101 (1:ℚ))
          (List.replicate 2101 (1:ℚ)) (List.replicate 2101 (1:ℚ))
          (List.replicate 2101 (1:ℚ))).r1))
    ∧ (run_sail stubSail [] [] 0 0 0 0 0 0 2 0 "DHR"
      (some (List.replicate 2101 (1:ℚ))) none none
      (some (List.replicate 2101 (0:ℚ))) (some (List.replicate 2101 (0:ℚ)))
      = .ok (.spectrum (Rho.mk (List.replicate 2101 (1:ℚ))
          (List.replicate 2101 (1:ℚ)) (List.replicate 2101 (1:ℚ))
          (List.replicate 2101 (1:ℚ))).r2))
    ∧ (run_sail stubSail [] [] 0 0 0 0 0 0 2 0 "HDR"
      (some (List.replicate 2101 (1:ℚ))) none none
      (some (List.replicate 2101 (0:ℚ))) (some (List.replicate 2101 (0:ℚ)))
      = .ok (.spectrum (Rho.mk (List.replicate 2101 (1:ℚ))
          (List.replicate 2101 (1:ℚ)) (List.replicate 2101 (1:ℚ))
          (List.replicate 2101 (1:ℚ))).r3)) :=
  all_rows_consistent stubSail [] [] 0 0 0 0 0 0 2 0 (List.replicate 2101 (1:ℚ))
    none none (List.replicate 2101 (0:ℚ)) (List.replicate 2101 (0:ℚ))
    (Rho.mk (List.replicate 2101 (1:ℚ)) (List.replicate 2101 (1:ℚ))
      (List.replicate 2101 (1:ℚ)) (List.replicate 2101 (1:ℚ)))
    (by simp)
    (by
      have h := run_sail_rsoil0_ok stubSail [] [] 0 0 0 0 0 0 2 0 "ALL"
        (List.replicate 2101 (1:ℚ)) none none (List.replicate 2101 (0:ℚ))
        (List.replicate 2101 (0:ℚ)) (by decide) (by simp)
      rw [show pyUpper "ALL" = "ALL" from by decide] at h
      exact h.trans (by rfl))

/-- C9: run_prosail never returns a reflectance result on any input; and on
every input that passes the factor-selector and soil-resolution checks it
fails with the NameError for the unbound name nr raised while building the
keyword arguments of the leaf-optical-model call. -/
theorem prosail_never_returns
    (n cab car cbrown cw cm lai lidfa hspot tts tto psi ant alpha : ℚ)
    (prospect_version : String) (typelidf : ℤ) (lidfb : ℚ) (factor : String)
    (rsoil0 : Option Spectrum) (rsoil psoil : Option ℚ)
    (s1opt s2opt : Option Spectrum) :
    (∀ out, run_prosail n cab car cbrown cw cm lai lidfa hspot tts tto psi ant
        alpha prospect_version typelidf lidfb factor rsoil0 rsoil psoil s1opt
        s2opt ≠ Except.ok out)
    ∧ (pyUpper factor ∈ allowedFactors →
       ∀ l1 l2, s1opt = some l1 → l1.length = 2101 → s2opt = some l2 →
       (rsoil0.isSome = true
         ∨ (rsoil.isSome = true ∧ psoil.isSome = true ∧ l2.length = 2101)) →
       run_prosail n cab car cbrown cw cm lai lidfa hspot tts tto psi ant
         alpha prospect_version typelidf lidfb factor rsoil0 rsoil psoil s1opt
         s2opt = Except.error (PyErr.nameError "nr")) := by
  constructor
  · intro out h
    simp only [run_prosail] at h
    repeat' split at h
    all_goals simp_all
  · intro hf l1 l2 hs1 hl hs2 hres
    subst hs1
    subst hs2
    rcases hres with h0 | ⟨hrs, hps, hl2⟩
    · obtain ⟨r0, hr0⟩ := Option.isSome_iff_exists.mp h0
      subst hr0
      exact run_prosail_rsoil0_nr n cab car cbrown cw cm lai lidfa hspot tts
        tto psi ant alpha prospect_version typelidf lidfb factor r0 rsoil
        psoil l1 l2 hf hl
    · obtain ⟨rs, hrs2⟩ := Option.isSome_iff_exists.mp hrs
      obtain ⟨ps, hps2⟩ := Option.isSome_iff_exists.mp hps
      subst hrs2
      subst hps2
      cases rsoil0 with
      | some r0 =>
        exact run_prosail_rsoil0_nr n cab car cbrown cw cm lai lidfa hspot tts
          tto psi ant alpha prospect_version typelidf lidfb factor r0 (some rs)
          (some ps) l1 l2 hf hl
      | none =>
        exact run_prosail_mix_nr n cab car cbrown cw cm lai lidfa hspot tts tto
          psi ant alpha prospect_version typelidf lidfb factor rs ps l1 l2 hf hl

/-- C9 witness: a run_prosail call passing all marshalling checks (lower-case
factor, well-formed spectra, rsoil0 supplied) fails with the NameError on nr. -/
theorem prosail_never_returns_witness :
    run_prosail 1 1 1 1 1 1 1 1 1 1 1 1 0 40 "5" 2 0 "sdr"
      (some (List.replicate 2101 (0:ℚ))) none none
      (some (List.replicate 2101 (0:ℚ))) (some (List.replicate 2101 (0:ℚ)))
      = Except.error (PyErr.nameError "nr") :=
  (prosail_never_returns 1 1 1 1 1 1 1 1 1 1 1 1 0 40 "5" 2 0 "sdr"
      (some (List.replicate 2101 (0:ℚ))) none none
      (some (List.replicate 2101 (0:ℚ))) (some (List.replicate 2101 (0:ℚ)))).2
    (by decide) (List.replicate 2101 (0:ℚ)) (List.replicate 2101 (0:ℚ))
    rfl (by simp) rfl (Or.inl rfl)

/-- C10: whenever soil_spectrum1 or soil_spectrum2 is omitted, the call
raises an error instead of using the documented default spectra; with a valid
factor (and any supplied soil_spectrum1 well-formed) that error is precisely
the NameError on spectral_libs, the module-level name that is never imported
or defined. -/
theorem default_spectra_unreachable (sailFn : SailFn) (refl trans : Spectrum)
    (lai lidfa hspot tts tto psi : ℚ) (typelidf : ℤ) (lidfb : ℚ)
    (n cab car cbrown cw cm ant alpha : ℚ) (prospect_version : String)
    (factor : String) (rsoil0 : Option Spectrum) (rsoil psoil : Option ℚ)
    (s1opt s2opt : Option Spectrum)
    (hnone : s1opt = none ∨ s2opt = none)
    (h1 : ∀ l, s1opt = some l → l.length = 2101) :
    (∃ e, run_sail sailFn refl trans lai lidfa hspot tts tto psi typelidf lidfb
        factor rsoil0 rsoil psoil s1opt s2opt = .error e)
    ∧ (∃ e, run_prosail n cab car cbrown cw cm lai lidfa hspot tts tto psi ant
        alpha prospect_version typelidf lidfb factor rsoil0 rsoil psoil s1opt
        s2opt = .error e)
    ∧ (pyUpper factor ∈ allowedFactors →
        run_sail sailFn refl trans lai lidfa hspot tts tto psi typelidf lidfb
          factor rsoil0 rsoil psoil s1opt s2opt
          = .error (.nameError "spectral_libs")
        ∧ run_prosail n cab car cbrown cw cm lai lidfa hspot tts tto psi ant
            alpha prospect_version typelidf lidfb factor rsoil0 rsoil psoil
            s1opt s2opt = .error (.nameError "spectral_libs")) := by
  by_cases hf : pyUpper factor ∈ allowedFactors
  · have key : run_sail sailFn refl trans lai lidfa hspot tts tto psi typelidf
        lidfb factor rsoil0 rsoil psoil s1opt s2opt
        = .error (.nameError "spectral_libs")
        ∧ run_prosail n cab car cbrown cw cm lai lidfa hspot tts tto psi ant
            alpha prospect_version typelidf lidfb factor rsoil0 rsoil psoil
            s1opt s2opt = .error (.nameError "spectral_libs") := by
      rcases hnone with hn | hn
      · subst hn
        exact ⟨run_sail_s1_none sailFn refl trans lai lidfa hspot tts tto psi
            typelidf lidfb factor rsoil0 rsoil psoil s2opt hf,
          run_prosail_s1_none n cab car cbrown cw cm lai lidfa hspot tts tto
            psi ant alpha prospect_version typelidf lidfb factor rsoil0 rsoil
            psoil s2opt hf⟩
      · subst hn
        cases s1opt with
        | none =>
          exact ⟨run_sail_s1_none sailFn refl trans lai lidfa hspot tts tto psi
              typelidf lidfb factor rsoil0 rsoil psoil none hf,
            run_prosail_s1_none n cab car cbrown cw cm lai lidfa hspot tts tto
              psi ant alpha prospect_version typelidf lidfb factor rsoil0
              rsoil psoil none hf⟩
        | some l1 =>
          have hl : l1.length = 2101 := h1 l1 rfl
          exact ⟨run_sail_s2_none sailFn refl trans lai lidfa hspot tts tto psi
              typelidf lidfb factor rsoil0 rsoil psoil l1 hf hl,
            run_prosail_s2_none n cab car cbrown cw cm lai lidfa hspot tts tto
              psi ant alpha prospect_version typelidf lidfb factor rsoil0
              rsoil psoil l1 hf hl⟩
    exact ⟨⟨_, key.1⟩, ⟨_, key.2⟩, fun _ => key⟩
  · exact ⟨⟨.valueError factorMsg,
      run_sail_invalid_factor sailFn refl trans lai lidfa hspot tts tto psi
        typelidf lidfb factor rsoil0 rsoil psoil s1opt s2opt hf⟩,
      ⟨.valueError factorMsg,
      run_prosail_invalid_factor n cab car cbrown cw cm lai lidfa hspot tts
        tto psi ant alpha prospect_version typelidf lidfb factor rsoil0 rsoil
        psoil s1opt s2opt hf⟩,
      fun hff => absurd hff hf⟩

/-- C10 witness: with soil_spectrum1 omitted and everything else present,
both drivers fail with the NameError on spectral_libs. -/
theorem default_spectra_unreachable_witness :
    run_sail stubSail [] [] 0 0 0 0 0 0 2 0 "BHR" none (some 1) (some 1)
      none (some [])
      = Except.error (PyErr.nameError "spectral_libs")
    ∧ run_prosail 1 1 1 1 1 1 0 0 0 0 0 0 0 40 "5" 2 0 "BHR" none (some 1)
        (some 1) none (some [])
      = Except.error (PyErr.nameError "spectral_libs") :=
  (default_spectra_unreachable stubSail [] [] 0 0 0 0 0 0 2 0 1 1 1 1 1 1 0 40
      "5" "BHR" none (some 1) (some 1) none (some [])
      (Or.inl rfl) (by simp)).2.2 (by decide)

end Prosail
